import Mathlib

/-!
# WhaleMind behavior-classification engine: a shallow embedding

This file embeds the classification engine of the WhaleMind repository,
i.e. the modules `src/behavior.py` and `src/intelligence.py`, and proves
the specification claims about it.

Conventions of the embedding:

* Python floats are modelled as exact rationals (`ℚ`).  All the quantities
  involved (wei amounts divided by `10^18`, sums, ratios, rounded values)
  are exact rationals, so the embedding follows the real-number semantics
  of the source; binary-float rounding noise is abstracted away.
* `round(x, d)` is modelled by `pyRound d`, rounding to `d` decimal places.
  Python rounds ties to even; `pyRound` rounds ties up.  The two agree
  except on exact decimal midpoints, and no claim below depends on a
  midpoint case.
* String parsing is modelled at the level of its outcome: the `value`
  field of a transfer carries the outcome of Python `Decimal(value_str)`
  (either a rational or a parse failure), the `timeStamp` field carries
  the outcome of `int(ts)`.  A missing field, or an empty string (falsy in
  Python, hence replaced by the `"0"` default at `value` call sites and
  skipped at `timeStamp` call sites in both modules), is `none`.
* Python `str.lower()` on the ASCII address strings is `pyLower`
  (character-wise lowering).
* Running float accumulators (`total_in_eth += ...`) are modelled as exact
  sums over mapped lists; Python `sorted` is modelled by an insertion
  sort (on a linearly ordered type any sorting algorithm yields the same,
  uniquely determined, output list).
* The per-hour `defaultdict` histogram is modelled by the counting
  function `hour_count_of`; its maximum over the 24 possible buckets
  equals the Python `max(hour_counts.values())` over the present buckets
  (absent buckets count 0 and never exceed a present bucket, and both
  sides are 0 when no timestamp parses).
-/

namespace WhaleMind

/-- Outcome of applying Python `Decimal(...)` to the string held by a
`value` field: either a successfully parsed rational (wei amount) or a
parse failure (`decimal.InvalidOperation` in the source, caught by
`wei_to_eth`). -/
inductive ValStr where
  | bad : ValStr
  | num (q : ℚ) : ValStr
deriving DecidableEq

/-- Outcome of applying Python `int(...)` to the string held by a
`timeStamp` field: either a parsed integer or a parse failure. -/
inductive TsStr where
  | bad : TsStr
  | num (n : ℤ) : TsStr
deriving DecidableEq

/-- One Etherscan-style transfer record, as consumed by the engine.
`none` in an address field models a missing (or `None`) entry; `none` in
`value`/`timeStamp` models a missing entry or an empty string. -/
structure Tx where
  fromAddr : Option String
  toAddr : Option String
  value : Option ValStr
  timeStamp : Option TsStr
deriving DecidableEq

/-- Python `str.lower()` (character-wise, which is what it does on the
ASCII hex addresses the engine receives). -/
def pyLower (s : String) : String := String.mk (s.data.map Char.toLower)

/-- Python `round(q, d)`: round to `d` decimal digits. -/
def pyRound (d : ℕ) (q : ℚ) : ℚ := (⌊q * 10 ^ d + 1 / 2⌋ : ℚ) / 10 ^ d

/-! ## `src/behavior.py` -/

/-- `behavior.WEI_PER_ETH`. -/
def WEI_PER_ETH : ℚ := 10 ^ 18

/-- `behavior.wei_to_eth` under the INTENDED semantics of its handler:
convert a wei string to ETH, 0.0 on a parse failure.  This is what the
`except` branch of the source was written to do, and it is what actually
happens on every input whose value string parses (the handler is then
never evaluated).  The source's error path as really executed is
`wei_to_eth_actual` below: the handler tuple itself is broken, so a parse
failure raises instead of returning 0.0.  The rest of the embedding uses
this total function; every other claim, witness and counterexample in
this file evaluates the engine only at records whose value field parses,
where the two definitions coincide. -/
def wei_to_eth : ValStr → ℚ
  | .bad => 0
  | .num q => q / WEI_PER_ETH

/-- A Python exception escaping `wei_to_eth`. -/
inductive PyExc where
  | attributeError : PyExc
deriving DecidableEq

/-- `behavior.wei_to_eth` as actually executed.  The handler at
`behavior.py:19` is `except (TypeError, ValueError,
Decimal.InvalidOperation)`, but `InvalidOperation` is an attribute of the
`decimal` module, not of the `Decimal` class, so when `Decimal(wei_str)`
fails the evaluation of the handler tuple itself raises
`AttributeError`, which escapes the function (and the whole metrics
pass) instead of producing the 0.0 fallback. -/
def wei_to_eth_actual : ValStr → Except PyExc ℚ
  | .bad => .error .attributeError
  | .num q => .ok (q / WEI_PER_ETH)

/-- `tx.get("value") or "0"`: a missing/empty value field is replaced by
the string `"0"`, which parses to 0. -/
def valueOr0 : Option ValStr → ValStr
  | none => .num 0
  | some v => v

/-- The ETH value the source computes for one record
(`wei_to_eth(tx.get("value") or "0")`). -/
def txValueEth (tx : Tx) : ℚ := wei_to_eth (valueOr0 tx.value)

/-- `(tx.get("from") or "").lower()`. -/
def txFrom (tx : Tx) : String := pyLower (tx.fromAddr.getD "")

/-- `(tx.get("to") or "").lower()`. -/
def txTo (tx : Tx) : String := pyLower (tx.toAddr.getD "")

/-- The parsed timestamp of a record, `none` when the field is missing,
empty or unparseable (both modules then skip the record's timestamp). -/
def txTs (tx : Tx) : Option ℤ :=
  match tx.timeStamp with
  | some (.num n) => some n
  | _ => none

/-- The list of parsed timestamps, in input order (`timestamps` in
`analyze_transactions`, `tx_timestamps` in the intelligence pass). -/
def timestampsOf (txs : List Tx) : List ℤ := txs.filterMap txTs

/-- Contribution of one record to `total_in_eth` relative to the lowered
subject address. -/
def inContrib (addrL : String) (tx : Tx) : ℚ :=
  if txTo tx = addrL then txValueEth tx else 0

/-- Contribution of one record to `total_out_eth` relative to the lowered
subject address. -/
def outContrib (addrL : String) (tx : Tx) : ℚ :=
  if txFrom tx = addrL then txValueEth tx else 0

/-- The counterparty addresses one record contributes to the
`counterparties` set.  For a truthy subject (`wallet_address` nonempty)
this follows the wallet-relative branch of the source; otherwise the
no-wallet branch (all nonempty endpoint addresses). -/
def cpList (addr : String) (tx : Tx) : List String :=
  if addr = "" then
    (if txFrom tx ≠ "" then [txFrom tx] else []) ++
      (if txTo tx ≠ "" then [txTo tx] else [])
  else
    (if txFrom tx = pyLower addr ∧ txTo tx ≠ "" then [txTo tx] else []) ++
      (if txTo tx = pyLower addr ∧ txFrom tx ≠ "" then [txFrom tx] else [])

/-- Exact (pre-rounding) inbound total.  When `wallet_address` is falsy the
source never adds to `total_in_eth`. -/
def total_in_raw (txs : List Tx) (addr : String) : ℚ :=
  if addr = "" then 0 else (txs.map (inContrib (pyLower addr))).sum

/-- Exact (pre-rounding) outbound total.  When `wallet_address` is falsy
the source adds every record's value to `total_out_eth`. -/
def total_out_raw (txs : List Tx) (addr : String) : ℚ :=
  if addr = "" then (txs.map txValueEth).sum
  else (txs.map (outContrib (pyLower addr))).sum

/-- The `counterparties` set. -/
def counterpartiesOf (txs : List Tx) (addr : String) : Finset String :=
  (txs.flatMap (cpList addr)).toFinset

/-- `large_transfers`: number of records with value ≥ 10 ETH. -/
def large_transfers_of (txs : List Tx) : ℕ :=
  txs.countP (fun tx => decide ((10 : ℚ) ≤ txValueEth tx))

/-- Python `min` over a list, `None` on the empty list. -/
def listMin : List ℤ → Option ℤ
  | [] => none
  | t :: ts =>
    match listMin ts with
    | none => some t
    | some u => some (min t u)

/-- Python `max` over a list, `None` on the empty list. -/
def listMax : List ℤ → Option ℤ
  | [] => none
  | t :: ts =>
    match listMax ts with
    | none => some t
    | some u => some (max t u)

/-- The result record of `behavior.analyze_transactions`. -/
structure BehaviorMetrics where
  total_txs : ℕ
  total_in_eth : ℚ
  total_out_eth : ℚ
  unique_counterparties : ℕ
  first_seen : Option ℤ
  last_seen : Option ℤ
  large_transfers_count : ℕ
deriving DecidableEq

/-- `behavior.analyze_transactions(transactions, wallet_address)`.  The
empty subject string plays the role of both `None` and `""` (the falsy
values of `wallet_address`). -/
def analyze_transactions (txs : List Tx) (addr : String) : BehaviorMetrics where
  total_txs := txs.length
  total_in_eth := pyRound 4 (total_in_raw txs addr)
  total_out_eth := pyRound 4 (total_out_raw txs addr)
  unique_counterparties := (counterpartiesOf txs addr).card
  first_seen := listMin (timestampsOf txs)
  last_seen := listMax (timestampsOf txs)
  large_transfers_count := large_transfers_of txs

/-! ## `src/intelligence.py`: thresholds -/

def INFLOW_OUTFLOW_RATIO_ACCUM : ℚ := 1.5
def OUTFLOW_INFLOW_RATIO_DIST : ℚ := 1.5
def NET_INFLOW_MIN_ETH : ℚ := 50.0
def NET_OUTFLOW_MIN_ETH : ℚ := 50.0
def TX_FREQ_HIGH_TXS_PER_DAY : ℚ := 0.5
def TX_FREQ_MIN_DAYS : ℚ := 1.0
def COUNTERPARTIES_MANY : ℕ := 15
def COUNTERPARTIES_FEW : ℕ := 10
def LARGE_TRANSFER_ETH : ℚ := 10.0
def SPIKE_ETH : ℚ := 25.0
def LARGE_TRANSFERS_MIN_COUNT : ℕ := 2
def WHALE_HISTORICAL_ETH : ℚ := 200.0
def RECENCY_DAYS : ℕ := 30
def RECENCY_MAX_TXS_DORMANT : ℕ := 3
def RECENCY_MIN_HISTORICAL_TXS : ℕ := 10
def RECENCY_SPAN_DAYS_WHALE : ℚ := 60
def EXCHANGE_ROTATION_MIN_TXS : ℕ := 30
def TIMING_MIN_TXS_FOR_PATTERN : ℕ := 5

/-! ## `src/intelligence.py`: the metrics pass

Each local of `_compute_intelligence_metrics` becomes a definition of the
transfer list (and, where the source uses it, the subject address). -/

/-- `net_eth = total_in - total_out` (computed from the already-rounded
base totals). -/
def net_eth_of (txs : List Tx) (addr : String) : ℚ :=
  (analyze_transactions txs addr).total_in_eth -
    (analyze_transactions txs addr).total_out_eth

/-- `span_seconds = (last_ts - first_ts) if (first_ts and last_ts) else 0`.
Python truthiness makes a timestamp of 0 behave like an absent one here. -/
def span_seconds_of (txs : List Tx) : ℤ :=
  match listMin (timestampsOf txs), listMax (timestampsOf txs) with
  | some f, some l => if f ≠ 0 ∧ l ≠ 0 then l - f else 0
  | _, _ => 0

/-- `_seconds_to_days`. -/
def seconds_to_days (s : ℤ) : ℚ := if s ≠ 0 then (s : ℚ) / (24 * 3600) else 0

def span_days_of (txs : List Tx) : ℚ := seconds_to_days (span_seconds_of txs)

/-- `tx_frequency = total_txs / span_days if span_days >= TX_FREQ_MIN_DAYS
else 0.0`. -/
def tx_frequency_of (txs : List Tx) : ℚ :=
  if TX_FREQ_MIN_DAYS ≤ span_days_of txs then (txs.length : ℚ) / span_days_of txs
  else 0

/-- `now_ts = last_ts if last_ts else 0` (0 both for `None` and for the
falsy timestamp 0, so this is just the default-0 read). -/
def now_ts_of (txs : List Tx) : ℤ := (listMax (timestampsOf txs)).getD 0

/-- `recent_cutoff_ts = now_ts - RECENCY_DAYS*24*3600 if now_ts else 0`. -/
def recent_cutoff_of (txs : List Tx) : ℤ :=
  if now_ts_of txs ≠ 0 then now_ts_of txs - (RECENCY_DAYS : ℤ) * 24 * 3600 else 0

/-- `recent_tx_count`: parsed timestamps at or after the cutoff. -/
def recent_tx_count_of (txs : List Tx) : ℕ :=
  (timestampsOf txs).countP (fun t => decide (recent_cutoff_of txs ≤ t))

/-- `spike_count`: records with value ≥ `SPIKE_ETH`. -/
def spike_count_of (txs : List Tx) : ℕ :=
  txs.countP (fun tx => decide (SPIKE_ETH ≤ txValueEth tx))

/-- `spike_total_eth`: summed value of the spike records. -/
def spike_total_of (txs : List Tx) : ℚ :=
  (txs.map (fun tx => if SPIKE_ETH ≤ txValueEth tx then txValueEth tx else 0)).sum

/-- `in_values`: per-record inbound values; only collected when
`wallet_lower` is truthy. -/
def in_values_of (txs : List Tx) (addr : String) : List ℚ :=
  if pyLower addr = "" then []
  else txs.filterMap fun tx =>
    if txTo tx = pyLower addr then some (txValueEth tx) else none

/-- `out_values`: per-record outbound values; only collected when
`wallet_lower` is truthy. -/
def out_values_of (txs : List Tx) (addr : String) : List ℚ :=
  if pyLower addr = "" then []
  else txs.filterMap fun tx =>
    if txFrom tx = pyLower addr then some (txValueEth tx) else none

/-- `out_values_sorted = sorted(out_values)`. -/
def out_values_sorted_of (txs : List Tx) (addr : String) : List ℚ :=
  List.insertionSort (· ≤ ·) (out_values_of txs addr)

/-- `median_out = out_values_sorted[len(out_values_sorted) // 2]` with the
0.0 default on an empty list (the index is in range whenever the list is
nonempty, so `getD` is exactly the source's read). -/
def median_out_of (txs : List Tx) (addr : String) : ℚ :=
  (out_values_sorted_of txs addr).getD ((out_values_of txs addr).length / 2) 0

/-- `staggered_exits`. -/
def staggered_exits_of (txs : List Tx) (addr : String) : Bool :=
  decide (5 ≤ (out_values_of txs addr).length) &&
    decide (median_out_of txs addr < LARGE_TRANSFER_ETH) &&
    decide (NET_OUTFLOW_MIN_ETH < (analyze_transactions txs addr).total_out_eth)

/-- `(ts // 3600) % 24` with Python floor division and nonnegative
modulus. -/
def hour_of (t : ℤ) : ℤ := (Int.fdiv t 3600).emod 24

/-- Number of parsed timestamps falling in hour bucket `h`
(the `hour_counts` histogram read at `h`). -/
def hour_count_of (txs : List Tx) (h : ℤ) : ℕ :=
  (timestampsOf txs).countP (fun t => decide (hour_of t = h))

/-- `max_same_hour = max(hour_counts.values()) if hour_counts else 0`,
expressed as the maximum over the 24 possible buckets (absent buckets
count 0; see the header note). -/
def max_same_hour_of (txs : List Tx) : ℕ :=
  ((List.range 24).map fun h => hour_count_of txs (h : ℤ)).foldr max 0

def repeated_timing_of (txs : List Tx) : Bool :=
  decide (TIMING_MIN_TXS_FOR_PATTERN ≤ max_same_hour_of txs)

/-- `total_flow_eth = total_in + total_out`. -/
def total_flow_of (txs : List Tx) (addr : String) : ℚ :=
  (analyze_transactions txs addr).total_in_eth +
    (analyze_transactions txs addr).total_out_eth

def historically_large_of (txs : List Tx) (addr : String) : Bool :=
  decide (WHALE_HISTORICAL_ETH ≤ total_flow_of txs addr)

def dormant_candidate_of (txs : List Tx) (addr : String) : Bool :=
  decide (RECENCY_MIN_HISTORICAL_TXS ≤ txs.length) &&
    decide (recent_tx_count_of txs ≤ RECENCY_MAX_TXS_DORMANT) &&
    historically_large_of txs addr

/-- The local `inflow_outflow_ratio` of the source (line 103): real ratio
when `total_out > 0`, synthetic `total_in * 10` when `total_out` is zero
but `total_in` truthy, else 0. -/
def inflow_outflow_ratio_raw (txs : List Tx) (addr : String) : ℚ :=
  if 0 < (analyze_transactions txs addr).total_out_eth then
    (analyze_transactions txs addr).total_in_eth /
      (analyze_transactions txs addr).total_out_eth
  else if (analyze_transactions txs addr).total_in_eth ≠ 0 then
    (analyze_transactions txs addr).total_in_eth * 10
  else 0

/-- The local `outflow_inflow_ratio` of the source (line 104). -/
def outflow_inflow_ratio_raw (txs : List Tx) (addr : String) : ℚ :=
  if 0 < (analyze_transactions txs addr).total_in_eth then
    (analyze_transactions txs addr).total_out_eth /
      (analyze_transactions txs addr).total_in_eth
  else if (analyze_transactions txs addr).total_out_eth ≠ 0 then
    (analyze_transactions txs addr).total_out_eth * 10
  else 0

/-- The metrics bag returned by `_compute_intelligence_metrics` (the
`metrics` dict; `None` ratio entries are `none`). -/
structure IntelMetrics where
  total_in_eth : ℚ
  total_out_eth : ℚ
  net_eth : ℚ
  inflow_outflow_ratio : Option ℚ
  outflow_inflow_ratio : Option ℚ
  total_txs : ℕ
  span_days : ℚ
  tx_frequency : ℚ
  unique_counterparties : ℕ
  large_transfers_count : ℕ
  spike_count : ℕ
  spike_total_eth : ℚ
  recent_tx_count : ℕ
  first_seen : Option ℤ
  last_seen : Option ℤ
  staggered_exits : Bool
  repeated_timing : Bool
  total_flow_eth : ℚ
  historically_large : Bool
  dormant_candidate : Bool
  num_inflows : ℕ
  num_outflows : ℕ
deriving DecidableEq

/-- `_compute_intelligence_metrics(transactions, wallet_address)`. -/
def computeIntelligenceMetrics (txs : List Tx) (addr : String) : IntelMetrics where
  total_in_eth := (analyze_transactions txs addr).total_in_eth
  total_out_eth := (analyze_transactions txs addr).total_out_eth
  net_eth := net_eth_of txs addr
  inflow_outflow_ratio :=
    if 0 < (analyze_transactions txs addr).total_out_eth then
      some (pyRound 4 (inflow_outflow_ratio_raw txs addr))
    else none
  outflow_inflow_ratio :=
    if 0 < (analyze_transactions txs addr).total_in_eth then
      some (pyRound 4 (outflow_inflow_ratio_raw txs addr))
    else none
  total_txs := txs.length
  span_days := pyRound 2 (span_days_of txs)
  tx_frequency := if tx_frequency_of txs ≠ 0 then pyRound 4 (tx_frequency_of txs) else 0
  unique_counterparties := (counterpartiesOf txs addr).card
  large_transfers_count := large_transfers_of txs
  spike_count := spike_count_of txs
  spike_total_eth := pyRound 4 (spike_total_of txs)
  recent_tx_count := recent_tx_count_of txs
  first_seen := listMin (timestampsOf txs)
  last_seen := listMax (timestampsOf txs)
  staggered_exits := staggered_exits_of txs addr
  repeated_timing := repeated_timing_of txs
  total_flow_eth := pyRound 4 (total_flow_of txs addr)
  historically_large := historically_large_of txs addr
  dormant_candidate := dormant_candidate_of txs addr
  num_inflows := (in_values_of txs addr).length
  num_outflows := (out_values_of txs addr).length

/-! ## `src/intelligence.py`: scoring, verdict, confidence, summary -/

/-- The five verdict string constants. -/
inductive Verdict where
  | SMART_MONEY_ACCUMULATION : Verdict
  | STEALTH_DISTRIBUTION : Verdict
  | EXCHANGE_ROTATION : Verdict
  | WHALE_DORMANT : Verdict
  | NEUTRAL : Verdict
deriving DecidableEq

/-- The five entity-type string constants. -/
inductive Entity where
  | likely_individual_whale : Entity
  | likely_distributor : Entity
  | likely_exchange_rotator : Entity
  | likely_dormant_whale : Entity
  | unknown : Entity
deriving DecidableEq

/-- `_score_signals`: sum of the weights whose predicate holds. -/
def scoreSignals (m : IntelMetrics) (signals : List (ℚ × (IntelMetrics → Bool))) : ℚ :=
  ((signals.filter fun wp => wp.2 m).map fun wp => wp.1).sum

/-- `SIGNALS_ACCUMULATION`. -/
def SIGNALS_ACCUMULATION : List (ℚ × (IntelMetrics → Bool)) :=
  [ (0.30, fun m => decide (INFLOW_OUTFLOW_RATIO_ACCUM ≤ m.inflow_outflow_ratio.getD 0)),
    (0.25, fun m => decide (NET_INFLOW_MIN_ETH ≤ m.net_eth)),
    (0.20, fun m => decide (3 ≤ m.num_inflows) && decide (NET_INFLOW_MIN_ETH ≤ m.total_in_eth)),
    (0.15, fun m => decide (m.unique_counterparties ≤ COUNTERPARTIES_FEW)
      && decide (LARGE_TRANSFER_ETH ≤ m.total_in_eth)),
    (0.10, fun m => decide (LARGE_TRANSFERS_MIN_COUNT ≤ m.large_transfers_count)) ]

def MAX_SCORE_ACCUMULATION : ℚ := (SIGNALS_ACCUMULATION.map fun wp => wp.1).sum

/-- `SIGNALS_DISTRIBUTION`. -/
def SIGNALS_DISTRIBUTION : List (ℚ × (IntelMetrics → Bool)) :=
  [ (0.30, fun m => decide (OUTFLOW_INFLOW_RATIO_DIST ≤ m.outflow_inflow_ratio.getD 0)),
    (0.25, fun m => decide (m.net_eth ≤ -NET_OUTFLOW_MIN_ETH)),
    (0.20, fun m => m.staggered_exits),
    (0.15, fun m => decide (5 ≤ m.num_outflows)),
    (0.10, fun m => decide (1 ≤ m.spike_count) && decide (m.total_in_eth < m.total_out_eth)) ]

def MAX_SCORE_DISTRIBUTION : ℚ := (SIGNALS_DISTRIBUTION.map fun wp => wp.1).sum

/-- `SIGNALS_EXCHANGE_ROTATION`. -/
def SIGNALS_EXCHANGE_ROTATION : List (ℚ × (IntelMetrics → Bool)) :=
  [ (0.35, fun m => decide (COUNTERPARTIES_MANY ≤ m.unique_counterparties)),
    (0.30, fun m => decide (TX_FREQ_HIGH_TXS_PER_DAY ≤ m.tx_frequency)
      || decide (EXCHANGE_ROTATION_MIN_TXS ≤ m.total_txs)),
    (0.20, fun m => decide (WHALE_HISTORICAL_ETH ≤ m.total_flow_eth)),
    (0.15, fun m => m.repeated_timing) ]

def MAX_SCORE_EXCHANGE_ROTATION : ℚ := (SIGNALS_EXCHANGE_ROTATION.map fun wp => wp.1).sum

/-- `SIGNALS_WHALE_DORMANT`. -/
def SIGNALS_WHALE_DORMANT : List (ℚ × (IntelMetrics → Bool)) :=
  [ (0.45, fun m => m.dormant_candidate),
    (0.30, fun m => decide (m.recent_tx_count ≤ RECENCY_MAX_TXS_DORMANT)
      && m.historically_large),
    (0.25, fun m => decide (RECENCY_SPAN_DAYS_WHALE ≤ m.span_days)
      && decide (m.recent_tx_count ≤ 2)) ]

def MAX_SCORE_WHALE_DORMANT : ℚ := (SIGNALS_WHALE_DORMANT.map fun wp => wp.1).sum

/-- The score map built by `_compute_all_scores`, in dict insertion
order. -/
structure Scores where
  accumulation : ℚ
  distribution : ℚ
  exchange_rotation : ℚ
  whale_dormant : ℚ
deriving DecidableEq

/-- `_compute_all_scores`: normalized, rounded, capped at 1.0. -/
def computeAllScores (m : IntelMetrics) : Scores where
  accumulation :=
    min 1 (pyRound 4 (scoreSignals m SIGNALS_ACCUMULATION / MAX_SCORE_ACCUMULATION))
  distribution :=
    min 1 (pyRound 4 (scoreSignals m SIGNALS_DISTRIBUTION / MAX_SCORE_DISTRIBUTION))
  exchange_rotation :=
    min 1 (pyRound 4 (scoreSignals m SIGNALS_EXCHANGE_ROTATION / MAX_SCORE_EXCHANGE_ROTATION))
  whale_dormant :=
    min 1 (pyRound 4 (scoreSignals m SIGNALS_WHALE_DORMANT / MAX_SCORE_WHALE_DORMANT))

/-- Score-map lookup (`scores[v]`; `NEUTRAL` is never a key of the dict
and is never looked up by the source, the 0 is a junk value). -/
def scoreOf (s : Scores) : Verdict → ℚ
  | .SMART_MONEY_ACCUMULATION => s.accumulation
  | .STEALTH_DISTRIBUTION => s.distribution
  | .EXCHANGE_ROTATION => s.exchange_rotation
  | .WHALE_DORMANT => s.whale_dormant
  | .NEUTRAL => 0

/-- `max(scores, key=scores.get)`: iterate the keys in dict insertion
order, keeping the current best and replacing it only on a strictly
greater score — so the earliest key among the maximal ones wins. -/
def bestVerdict (s : Scores) : Verdict :=
  let v1 := Verdict.SMART_MONEY_ACCUMULATION
  let v2 := if scoreOf s v1 < s.distribution then Verdict.STEALTH_DISTRIBUTION else v1
  let v3 := if scoreOf s v2 < s.exchange_rotation then Verdict.EXCHANGE_ROTATION else v2
  let v4 := if scoreOf s v3 < s.whale_dormant then Verdict.WHALE_DORMANT else v3
  v4

/-- The `entity_map` dict of `_pick_verdict_and_confidence`. -/
def entityMap : Verdict → Entity
  | .SMART_MONEY_ACCUMULATION => .likely_individual_whale
  | .STEALTH_DISTRIBUTION => .likely_distributor
  | .EXCHANGE_ROTATION => .likely_exchange_rotator
  | .WHALE_DORMANT => .likely_dormant_whale
  | .NEUTRAL => .unknown

def CONFIDENCE_MIN : ℚ := 0.30
def CONFIDENCE_MAX : ℚ := 0.95
def CONFIDENCE_STRENGTH_WEIGHT : ℚ := 0.50
def CONFIDENCE_MARGIN_WEIGHT : ℚ := 0.35
def CONFIDENCE_DATA_WEIGHT : ℚ := 0.15
def DATA_QUALITY_TXS_FLOOR : ℚ := 10
def DATA_QUALITY_TXS_CEILING : ℚ := 80

/-- The `data_quality` component of `_compute_confidence` as a function
of the transaction count. -/
def dataQuality (txs : ℕ) : ℚ :=
  if (txs : ℚ) ≤ DATA_QUALITY_TXS_FLOOR then (txs : ℚ) / DATA_QUALITY_TXS_FLOOR
  else min 1 (((txs : ℚ) - DATA_QUALITY_TXS_FLOOR) /
    (DATA_QUALITY_TXS_CEILING - DATA_QUALITY_TXS_FLOOR))

/-- The four scores in dict insertion order. -/
def scoresList (s : Scores) : List ℚ :=
  [s.accumulation, s.distribution, s.exchange_rotation, s.whale_dormant]

/-- `ordered[1][1]`: the second-largest score value, with multiplicity
(the source sorts the dict items by descending score and reads the value
of index 1; that value does not depend on how ties between items are
ordered, so sorting the bare values is the same read). -/
def secondScore (s : Scores) : ℚ :=
  (List.insertionSort (· ≥ ·) (scoresList s)).getD 1 0

/-- `_compute_confidence`. -/
def computeConfidence (best : Verdict) (s : Scores) (m : IntelMetrics)
    (neutralFallback : Bool) : ℚ :=
  if neutralFallback then pyRound 2 (CONFIDENCE_MIN + 0.15)
  else
    let strength := scoreOf s best
    let margin := min 1 (max 0 (strength - secondScore s))
    let confidence := CONFIDENCE_MIN + (CONFIDENCE_MAX - CONFIDENCE_MIN) *
      (CONFIDENCE_STRENGTH_WEIGHT * strength + CONFIDENCE_MARGIN_WEIGHT * margin +
        CONFIDENCE_DATA_WEIGHT * dataQuality m.total_txs)
    pyRound 2 (min CONFIDENCE_MAX (max CONFIDENCE_MIN confidence))

/-- Fixed-point decimal rendering of a rational, for the f-string
interpolations of `_behavior_summary` (Python formats the underlying
binary float with ties-to-even; the exact text of a tie case is
irrelevant to every claim, which never inspects the summary text). -/
def formatFixed (d : ℕ) (q : ℚ) : String :=
  let n : ℤ := ⌊q * 10 ^ d + 1 / 2⌋
  let sign := if n < 0 then "-" else ""
  let ip : ℕ := n.natAbs / 10 ^ d
  let fp : ℕ := n.natAbs % 10 ^ d
  let fpStr := Nat.toDigits 10 fp
  let pad := String.mk (List.replicate (d - fpStr.length) '0')
  if d = 0 then sign ++ toString ip
  else sign ++ toString ip ++ "." ++ pad ++ String.mk fpStr

/-- `_behavior_summary` (the `score` argument is unused in the source
too). -/
def behaviorSummary (v : Verdict) (m : IntelMetrics) (_score : ℚ) : String :=
  match v with
  | .SMART_MONEY_ACCUMULATION =>
    "Net inflow dominance (net " ++ formatFixed 1 m.net_eth ++
      " ETH) with repeated high-value buys; " ++
      toString m.unique_counterparties ++ " counterparties."
  | .STEALTH_DISTRIBUTION =>
    "Sustained outflows (net " ++ formatFixed 1 m.net_eth ++
      " ETH) with staggered transfers; distribution pattern."
  | .EXCHANGE_ROTATION =>
    "High counterparty count (" ++ toString m.unique_counterparties ++ "), " ++
      toString m.total_txs ++ " txs; exchange or routing behavior."
  | .WHALE_DORMANT =>
    "Historically large flow (" ++ formatFixed 0 m.total_flow_eth ++
      " ETH) with low recent activity (" ++ toString m.recent_tx_count ++
      " txs in last " ++ toString RECENCY_DAYS ++ "d)."
  | .NEUTRAL =>
    "No strong directional behavior detected; insufficient signal for classification."

/-- The tuple returned by `_pick_verdict_and_confidence`. -/
structure PickResult where
  verdict : Verdict
  entity_inference : Entity
  confidence : ℚ
  summary : String
deriving DecidableEq

/-- `_pick_verdict_and_confidence`. -/
def pickVerdictAndConfidence (m : IntelMetrics) : PickResult :=
  let s := computeAllScores m
  let best := bestVerdict s
  let bestScore := scoreOf s best
  let neutralFallback : Bool := decide (bestScore < 0.30)
  let best' := if neutralFallback then Verdict.NEUTRAL else best
  { verdict := best'
    entity_inference := entityMap best'
    confidence := computeConfidence best' s m neutralFallback
    summary := behaviorSummary best' m bestScore }

/-- The `metrics_used` entry of the result: absent (`include_metrics`
false), the empty dict (empty input), or the metrics bag with its float
entries re-rounded to 4 decimals. -/
inductive MetricsOut where
  | absent : MetricsOut
  | emptyDict : MetricsOut
  | bag (m : IntelMetrics) : MetricsOut
deriving DecidableEq

/-- `round(v, 4) if isinstance(v, float) else v` over the metrics dict:
exactly the float-valued entries are re-rounded (bools and ints are not
floats in Python). -/
def roundMetrics (m : IntelMetrics) : IntelMetrics :=
  { m with
    total_in_eth := pyRound 4 m.total_in_eth
    total_out_eth := pyRound 4 m.total_out_eth
    net_eth := pyRound 4 m.net_eth
    inflow_outflow_ratio := m.inflow_outflow_ratio.map (pyRound 4)
    outflow_inflow_ratio := m.outflow_inflow_ratio.map (pyRound 4)
    span_days := pyRound 4 m.span_days
    tx_frequency := pyRound 4 m.tx_frequency
    spike_total_eth := pyRound 4 m.spike_total_eth
    total_flow_eth := pyRound 4 m.total_flow_eth }

/-- The JSON-ready dict returned by `classify_wallet`. -/
structure ClassificationResult where
  address : String
  verdict : Verdict
  confidence : ℚ
  entity_inference : Entity
  entity_type : Entity
  behavior_summary : String
  metrics_used : MetricsOut
deriving DecidableEq

/-- `classify_wallet(transactions, wallet_address, include_metrics)`. -/
def classifyWallet (txs : List Tx) (addr : String)
    (includeMetrics : Bool := true) : ClassificationResult :=
  if txs.isEmpty then
    { address := addr
      verdict := .NEUTRAL
      confidence := 0.30
      entity_inference := .unknown
      entity_type := .unknown
      behavior_summary := "No transaction data available."
      metrics_used := if includeMetrics then .emptyDict else .absent }
  else
    let m := computeIntelligenceMetrics txs addr
    let p := pickVerdictAndConfidence m
    { address := addr
      verdict := p.verdict
      confidence := p.confidence
      entity_inference := p.entity_inference
      entity_type := p.entity_inference
      behavior_summary := p.summary
      metrics_used := if includeMetrics then .bag (roundMetrics m) else .absent }

/-! ## Generic lemmas about the embedding's primitives -/

theorem pyRound_mono (d : ℕ) {a b : ℚ} (h : a ≤ b) : pyRound d a ≤ pyRound d b := by
  unfold pyRound
  have h10 : (0 : ℚ) < 10 ^ d := by positivity
  gcongr

theorem pyRound_nonneg (d : ℕ) {a : ℚ} (h : 0 ≤ a) : 0 ≤ pyRound d a := by
  unfold pyRound
  have h10 : (0 : ℚ) < 10 ^ d := by positivity
  have hf : (0 : ℤ) ≤ ⌊a * 10 ^ d + 1 / 2⌋ := by
    apply Int.floor_nonneg.mpr
    nlinarith
  positivity

theorem pyLower_eq_empty_iff (s : String) : pyLower s = "" ↔ s = "" := by
  constructor
  · intro h
    have hd := congrArg String.data h
    simp only [pyLower] at hd
    rcases s with ⟨data⟩
    cases data <;> simp_all
  · intro h
    subst h
    rfl

/-! ## Claim C1: empty transfer list short-circuit -/

/-- C1.  For an empty transfer list, `classify_wallet` short-circuits
before the pipeline and returns exactly verdict `NEUTRAL`, confidence
0.30 and entity inference `unknown`, for every subject address (and
either value of `include_metrics`). -/
theorem classify_empty_neutral (addr : String) (inc : Bool) :
    (classifyWallet [] addr inc).verdict = Verdict.NEUTRAL ∧
    (classifyWallet [] addr inc).confidence = 0.30 ∧
    (classifyWallet [] addr inc).entity_inference = Entity.unknown :=
  ⟨rfl, rfl, rfl⟩

/-! ## Claim C4: conversion failures were meant to degrade to 0.0, but
the code raises

The claim (and the spec) describe the intended handler semantics.  The
code contradicts them: `behavior.py:19` catches `(TypeError, ValueError,
Decimal.InvalidOperation)`, and `Decimal.InvalidOperation` does not exist
(`InvalidOperation` lives on the `decimal` module, not on the `Decimal`
class), so the moment `Decimal(wei_str)` fails, evaluating the handler
tuple raises `AttributeError`.  A malformed value string therefore makes
`wei_to_eth` raise and the whole metrics pass die.  Only a missing or
empty value field degrades safely, because the call sites substitute the
parseable default `"0"` (`tx.get("value") or "0"`) before `wei_to_eth`
ever runs, so the broken handler is never reached on that path. -/

/-- C4 (code bug).  Evaluating the faithful embedding of
`behavior.wei_to_eth` at the failing input: a malformed value string
makes the function raise `AttributeError` — it does not return 0.0, so
the metrics pass does not complete there.  The missing-value path, by
contrast, returns 0.0 via the `"0"` default of the call sites. -/
theorem wei_to_eth_raises_on_malformed :
    wei_to_eth_actual ValStr.bad = Except.error PyExc.attributeError ∧
    wei_to_eth_actual (valueOr0 none) = Except.ok 0 := by
  constructor
  · rfl
  · norm_num [wei_to_eth_actual, valueOr0, WEI_PER_ETH]

/-! ## Claim C5: ratio reporting in the metrics bag

The source computes the synthetic ratio `total_in * 10` in the local
`inflow_outflow_ratio` (line 103) but the returned dict replaces it by
`None` whenever `total_out <= 0` (line 170), so the synthetic value never
reaches the bag and the accumulation ratio signal reads 0.  Likewise a
zero-outbound wallet with positive inbound reports
`outflow_inflow_ratio = 0.0`, which is defined; `None` is reported
exactly when `total_in <= 0`. -/

/-- A single inbound transfer of 30 ETH to subject `"a"`. -/
def cxTxC5 : Tx :=
  { fromAddr := some "b", toAddr := some "a",
    value := some (ValStr.num (30 * 10 ^ 18)), timeStamp := none }

/-- C5 counterexample.  On a wallet with zero outbound and 30 ETH
inbound, the metrics bag reports `inflow_outflow_ratio` as `None`
(the claim says the synthetic value 300 = 30 × 10), the accumulation
ratio signal does not trigger, and `outflow_inflow_ratio` is the defined
value 0.0 (the claim says undefined). -/
theorem synthetic_ratio_unexposed_cx :
    (computeIntelligenceMetrics [cxTxC5] "a").total_out_eth = 0 ∧
    (computeIntelligenceMetrics [cxTxC5] "a").total_in_eth = 30 ∧
    (computeIntelligenceMetrics [cxTxC5] "a").inflow_outflow_ratio = none ∧
    (computeIntelligenceMetrics [cxTxC5] "a").inflow_outflow_ratio ≠
      some ((computeIntelligenceMetrics [cxTxC5] "a").total_in_eth * 10) ∧
    (computeIntelligenceMetrics [cxTxC5] "a").outflow_inflow_ratio = some 0 := by
  norm_num +decide [computeIntelligenceMetrics, analyze_transactions, total_in_raw,
    total_out_raw, cxTxC5, inContrib, outContrib, txTo, txFrom, txValueEth, wei_to_eth,
    valueOr0, WEI_PER_ETH, pyLower, pyRound, outflow_inflow_ratio_raw, net_eth_of]

/-- C5 amended.  In the returned metrics bag, `inflow_outflow_ratio` is
`None` (not the internally computed synthetic value) whenever the
outbound total is not positive — in particular for a purely inbound
wallet — so the accumulation ratio signal reads 0 and does not trigger;
`outflow_inflow_ratio` is the defined value 0.0 for a zero-outbound
wallet with positive inbound, and is `None` exactly when the inbound
total is not positive. -/
theorem ratio_reporting_amended (txs : List Tx) (addr : String) :
    ((computeIntelligenceMetrics txs addr).total_out_eth ≤ 0 →
      (computeIntelligenceMetrics txs addr).inflow_outflow_ratio = none ∧
      ((computeIntelligenceMetrics txs addr).inflow_outflow_ratio.getD 0) <
        INFLOW_OUTFLOW_RATIO_ACCUM) ∧
    ((computeIntelligenceMetrics txs addr).total_out_eth = 0 →
      0 < (computeIntelligenceMetrics txs addr).total_in_eth →
      (computeIntelligenceMetrics txs addr).outflow_inflow_ratio = some 0) ∧
    ((computeIntelligenceMetrics txs addr).total_in_eth ≤ 0 →
      (computeIntelligenceMetrics txs addr).outflow_inflow_ratio = none) := by
  simp only [computeIntelligenceMetrics]
  refine ⟨fun hout => ?_, fun hout hin => ?_, fun hin => ?_⟩
  · rw [if_neg (by exact fun hc => absurd hout (not_le.mpr hc))]
    exact ⟨rfl, by norm_num [INFLOW_OUTFLOW_RATIO_ACCUM]⟩
  · rw [if_pos hin]
    have : outflow_inflow_ratio_raw txs addr = 0 := by
      unfold outflow_inflow_ratio_raw
      rw [if_pos hin, hout, zero_div]
    rw [this]
    norm_num [pyRound]
  · rw [if_neg (by exact fun hc => absurd hin (not_le.mpr hc))]

/-- Witness for C5's amended theorem at the same concrete wallet. -/
theorem ratio_reporting_amended_witness :
    (computeIntelligenceMetrics [cxTxC5] "a").inflow_outflow_ratio = none ∧
    (computeIntelligenceMetrics [cxTxC5] "a").outflow_inflow_ratio = some 0 := by
  have hout : (computeIntelligenceMetrics [cxTxC5] "a").total_out_eth = 0 := by
    norm_num +decide [computeIntelligenceMetrics, analyze_transactions, total_out_raw,
      cxTxC5, outContrib, txFrom, txValueEth, wei_to_eth, valueOr0, WEI_PER_ETH,
      pyLower, pyRound]
  have hin : (0 : ℚ) < (computeIntelligenceMetrics [cxTxC5] "a").total_in_eth := by
    norm_num +decide [computeIntelligenceMetrics, analyze_transactions, total_in_raw,
      cxTxC5, inContrib, txTo, txValueEth, wei_to_eth, valueOr0, WEI_PER_ETH,
      pyLower, pyRound]
  exact ⟨((ratio_reporting_amended [cxTxC5] "a").1 (le_of_eq hout)).1,
    (ratio_reporting_amended [cxTxC5] "a").2.1 hout hin⟩

/-! ## Claim C6: the data-quality component of the confidence blend -/

/-- C6 counterexample.  The data-quality component is 1 (not 0) at the
10-transaction floor, and the below-floor ramp (1/10 per transaction) is
steeper, not gentler, than the above-floor slope (1/70 per transaction):
5 transactions give 1/2 while 11 transactions give only 1/70. -/
theorem data_quality_floor_cx :
    dataQuality 10 = 1 ∧ dataQuality 5 = 1 / 2 ∧ dataQuality 11 = 1 / 70 := by
  norm_num [dataQuality, DATA_QUALITY_TXS_FLOOR, DATA_QUALITY_TXS_CEILING]

/-- C6 amended.  At or below the 10-transaction floor the data-quality
component is the proportional ramp `txs / 10` (hence 1, not 0, at the
floor itself, nonzero for any nonzero count, and steeper than the
above-floor slope); strictly above the floor it scales linearly as
`(txs - 10) / 70`, capped at 1, reaching 1 at the 80-transaction
ceiling. -/
theorem data_quality_shape (n : ℕ) :
    ((n : ℚ) ≤ 10 → dataQuality n = (n : ℚ) / 10) ∧
    (10 < (n : ℚ) → dataQuality n = min 1 (((n : ℚ) - 10) / 70)) ∧
    (0 < n → 0 < dataQuality n) ∧
    (80 ≤ n → dataQuality n = 1) := by
  refine ⟨fun h => ?_, fun h => ?_, fun h => ?_, fun h => ?_⟩
  · rw [dataQuality, if_pos (by norm_num [DATA_QUALITY_TXS_FLOOR, h])]
    norm_num [DATA_QUALITY_TXS_FLOOR]
  · rw [dataQuality, if_neg (by simp only [DATA_QUALITY_TXS_FLOOR, not_le]; exact h)]
    norm_num [DATA_QUALITY_TXS_FLOOR, DATA_QUALITY_TXS_CEILING]
  · have hn : (0 : ℚ) < (n : ℚ) := by exact_mod_cast h
    rw [dataQuality]
    split_ifs with hc
    · simp only [DATA_QUALITY_TXS_FLOOR]
      positivity
    · simp only [not_le, DATA_QUALITY_TXS_FLOOR] at hc
      apply lt_min one_pos
      have hpos : (0 : ℚ) < (n : ℚ) - 10 := by linarith
      simp only [DATA_QUALITY_TXS_FLOOR, DATA_QUALITY_TXS_CEILING]
      positivity
  · have hn : (80 : ℚ) ≤ (n : ℚ) := by exact_mod_cast h
    rw [dataQuality, if_neg (by simp only [DATA_QUALITY_TXS_FLOOR, not_le]; linarith)]
    rw [min_eq_left]
    simp only [DATA_QUALITY_TXS_FLOOR, DATA_QUALITY_TXS_CEILING]
    rw [le_div_iff₀ (by norm_num)]
    linarith

/-- Witness for C6's amended theorem at concrete transaction counts. -/
theorem data_quality_shape_witness :
    dataQuality 5 = (5 : ℚ) / 10 ∧ dataQuality 80 = 1 := by
  have h1 := (data_quality_shape 5).1 (by norm_num)
  have h2 := (data_quality_shape 80).2.2.2 (by norm_num)
  refine ⟨?_, h2⟩
  rw [h1]; norm_num

/-! ## Scoring lemmas shared by C2, C3, C8, C9 -/

theorem scoreSignals_cons (m : IntelMetrics) (wp : ℚ × (IntelMetrics → Bool))
    (sig : List (ℚ × (IntelMetrics → Bool))) :
    scoreSignals m (wp :: sig) = (if wp.2 m then wp.1 else 0) + scoreSignals m sig := by
  unfold scoreSignals
  rcases h : wp.2 m <;> simp [List.filter_cons, h]

theorem scoreSignals_nonneg (m : IntelMetrics) (sig : List (ℚ × (IntelMetrics → Bool)))
    (hw : ∀ wp ∈ sig, 0 ≤ wp.1) : 0 ≤ scoreSignals m sig := by
  unfold scoreSignals
  apply List.sum_nonneg
  intro x hx
  simp only [List.mem_map] at hx
  obtain ⟨wp, hmem, rfl⟩ := hx
  exact hw wp (List.mem_of_mem_filter hmem)

theorem signals_accumulation_weights_nonneg : ∀ wp ∈ SIGNALS_ACCUMULATION, (0 : ℚ) ≤ wp.1 := by
  intro wp hwp
  fin_cases hwp <;> norm_num

theorem signals_distribution_weights_nonneg : ∀ wp ∈ SIGNALS_DISTRIBUTION, (0 : ℚ) ≤ wp.1 := by
  intro wp hwp
  fin_cases hwp <;> norm_num

theorem signals_exchange_weights_nonneg : ∀ wp ∈ SIGNALS_EXCHANGE_ROTATION, (0 : ℚ) ≤ wp.1 := by
  intro wp hwp
  fin_cases hwp <;> norm_num

theorem signals_dormant_weights_nonneg : ∀ wp ∈ SIGNALS_WHALE_DORMANT, (0 : ℚ) ≤ wp.1 := by
  intro wp hwp
  fin_cases hwp <;> norm_num

theorem max_score_accumulation_eq : MAX_SCORE_ACCUMULATION = 1 := by
  norm_num [MAX_SCORE_ACCUMULATION, SIGNALS_ACCUMULATION]

theorem max_score_distribution_eq : MAX_SCORE_DISTRIBUTION = 1 := by
  norm_num [MAX_SCORE_DISTRIBUTION, SIGNALS_DISTRIBUTION]

theorem max_score_exchange_eq : MAX_SCORE_EXCHANGE_ROTATION = 1 := by
  norm_num [MAX_SCORE_EXCHANGE_ROTATION, SIGNALS_EXCHANGE_ROTATION]

theorem max_score_dormant_eq : MAX_SCORE_WHALE_DORMANT = 1 := by
  norm_num [MAX_SCORE_WHALE_DORMANT, SIGNALS_WHALE_DORMANT]

theorem scoreVal_mem {x : ℚ} (hx : 0 ≤ x) :
    0 ≤ min 1 (pyRound 4 x) ∧ min 1 (pyRound 4 x) ≤ 1 :=
  ⟨le_min (by norm_num) (pyRound_nonneg 4 hx), min_le_left _ _⟩

/-- Each normalized verdict score lies in `[0, 1]`. -/
theorem computeAllScores_mem (m : IntelMetrics) :
    (0 ≤ (computeAllScores m).accumulation ∧ (computeAllScores m).accumulation ≤ 1) ∧
    (0 ≤ (computeAllScores m).distribution ∧ (computeAllScores m).distribution ≤ 1) ∧
    (0 ≤ (computeAllScores m).exchange_rotation ∧ (computeAllScores m).exchange_rotation ≤ 1) ∧
    (0 ≤ (computeAllScores m).whale_dormant ∧ (computeAllScores m).whale_dormant ≤ 1) := by
  unfold computeAllScores
  refine ⟨?_, ?_, ?_, ?_⟩
  · rw [max_score_accumulation_eq, div_one]
    exact scoreVal_mem (scoreSignals_nonneg m _ signals_accumulation_weights_nonneg)
  · rw [max_score_distribution_eq, div_one]
    exact scoreVal_mem (scoreSignals_nonneg m _ signals_distribution_weights_nonneg)
  · rw [max_score_exchange_eq, div_one]
    exact scoreVal_mem (scoreSignals_nonneg m _ signals_exchange_weights_nonneg)
  · rw [max_score_dormant_eq, div_one]
    exact scoreVal_mem (scoreSignals_nonneg m _ signals_dormant_weights_nonneg)

/-- The Python `max` over the four-key score dict never yields the
`NEUTRAL` key; it is one of the four directional verdicts. -/
theorem bestVerdict_cases (s : Scores) :
    bestVerdict s = Verdict.SMART_MONEY_ACCUMULATION ∨
    bestVerdict s = Verdict.STEALTH_DISTRIBUTION ∨
    bestVerdict s = Verdict.EXCHANGE_ROTATION ∨
    bestVerdict s = Verdict.WHALE_DORMANT := by
  unfold bestVerdict
  simp only []
  split_ifs <;> simp

theorem pyRound_two_decimals (q : ℚ) : ∃ k : ℤ, pyRound 2 q = (k : ℚ) / 100 :=
  ⟨⌊q * 10 ^ 2 + 1 / 2⌋, by norm_num [pyRound]⟩

theorem pyRound_clamp_mem (c : ℚ) :
    0.30 ≤ pyRound 2 (min CONFIDENCE_MAX (max CONFIDENCE_MIN c)) ∧
    pyRound 2 (min CONFIDENCE_MAX (max CONFIDENCE_MIN c)) ≤ 0.95 := by
  constructor
  · have h1 : (0.30 : ℚ) ≤ min CONFIDENCE_MAX (max CONFIDENCE_MIN c) :=
      le_min (by norm_num [CONFIDENCE_MAX])
        (le_trans (by norm_num [CONFIDENCE_MIN]) (le_max_left _ _))
    calc (0.30 : ℚ) = pyRound 2 0.30 := by norm_num [pyRound]
      _ ≤ _ := pyRound_mono 2 h1
  · have h2 : min CONFIDENCE_MAX (max CONFIDENCE_MIN c) ≤ 0.95 := by
      have hm := min_le_left (CONFIDENCE_MAX) (max CONFIDENCE_MIN c)
      simp only [CONFIDENCE_MAX] at hm
      exact hm
    calc pyRound 2 _ ≤ pyRound 2 0.95 := pyRound_mono 2 h2
      _ = 0.95 := by norm_num [pyRound]

/-- `_compute_confidence` always lands in `[0.30, 0.95]` on a grid of
hundredths, whatever its inputs. -/
theorem computeConfidence_mem (best : Verdict) (s : Scores) (m : IntelMetrics) (fb : Bool) :
    0.30 ≤ computeConfidence best s m fb ∧ computeConfidence best s m fb ≤ 0.95 ∧
    ∃ k : ℤ, computeConfidence best s m fb = (k : ℚ) / 100 := by
  unfold computeConfidence
  split_ifs with hfb
  · refine ⟨by norm_num [pyRound, CONFIDENCE_MIN], by norm_num [pyRound, CONFIDENCE_MIN],
      pyRound_two_decimals _⟩
  · exact ⟨(pyRound_clamp_mem _).1, (pyRound_clamp_mem _).2, pyRound_two_decimals _⟩

/-- On a nonempty input `classify_wallet` is the pipeline result. -/
theorem classifyWallet_of_ne_nil {txs : List Tx} (addr : String) (inc : Bool)
    (h : txs ≠ []) :
    classifyWallet txs addr inc =
      { address := addr
        verdict := (pickVerdictAndConfidence (computeIntelligenceMetrics txs addr)).verdict
        confidence := (pickVerdictAndConfidence (computeIntelligenceMetrics txs addr)).confidence
        entity_inference :=
          (pickVerdictAndConfidence (computeIntelligenceMetrics txs addr)).entity_inference
        entity_type :=
          (pickVerdictAndConfidence (computeIntelligenceMetrics txs addr)).entity_inference
        behavior_summary :=
          (pickVerdictAndConfidence (computeIntelligenceMetrics txs addr)).summary
        metrics_used :=
          if inc then MetricsOut.bag (roundMetrics (computeIntelligenceMetrics txs addr))
          else MetricsOut.absent } := by
  unfold classifyWallet
  rw [if_neg (by simp [List.isEmpty_iff, h])]

/-- When every directional score is below the 0.30 floor, the pipeline
falls back to `NEUTRAL` with the fixed confidence 0.45. -/
theorem pick_neutral_of_low (m : IntelMetrics)
    (h4 : (computeAllScores m).accumulation < 0.30 ∧
      (computeAllScores m).distribution < 0.30 ∧
      (computeAllScores m).exchange_rotation < 0.30 ∧
      (computeAllScores m).whale_dormant < 0.30) :
    (pickVerdictAndConfidence m).verdict = Verdict.NEUTRAL ∧
    (pickVerdictAndConfidence m).confidence = 0.45 := by
  have hlow : scoreOf (computeAllScores m) (bestVerdict (computeAllScores m)) < 0.30 := by
    rcases bestVerdict_cases (computeAllScores m) with hb | hb | hb | hb <;>
      rw [hb] <;> simp only [scoreOf] <;> tauto
  have hd : decide (scoreOf (computeAllScores m) (bestVerdict (computeAllScores m)) < 0.30)
      = true := decide_eq_true hlow
  unfold pickVerdictAndConfidence
  constructor
  · simp [hd]
  · simp only [hd, if_true]
    norm_num [computeConfidence, CONFIDENCE_MIN, pyRound]

/-! ## Claim C2: score range and the neutral floor -/

/-- C2.  For every non-empty transfer list and subject address, each of
the four directional verdict scores lies in `[0, 1]`; and whenever all
four are below 0.30, the returned verdict is `NEUTRAL` with confidence
exactly 0.45. -/
theorem scores_unit_interval_neutral_fallback (txs : List Tx) (addr : String)
    (inc : Bool) (h : txs ≠ []) :
    (0 ≤ (computeAllScores (computeIntelligenceMetrics txs addr)).accumulation ∧
      (computeAllScores (computeIntelligenceMetrics txs addr)).accumulation ≤ 1) ∧
    (0 ≤ (computeAllScores (computeIntelligenceMetrics txs addr)).distribution ∧
      (computeAllScores (computeIntelligenceMetrics txs addr)).distribution ≤ 1) ∧
    (0 ≤ (computeAllScores (computeIntelligenceMetrics txs addr)).exchange_rotation ∧
      (computeAllScores (computeIntelligenceMetrics txs addr)).exchange_rotation ≤ 1) ∧
    (0 ≤ (computeAllScores (computeIntelligenceMetrics txs addr)).whale_dormant ∧
      (computeAllScores (computeIntelligenceMetrics txs addr)).whale_dormant ≤ 1) ∧
    (((computeAllScores (computeIntelligenceMetrics txs addr)).accumulation < 0.30 ∧
      (computeAllScores (computeIntelligenceMetrics txs addr)).distribution < 0.30 ∧
      (computeAllScores (computeIntelligenceMetrics txs addr)).exchange_rotation < 0.30 ∧
      (computeAllScores (computeIntelligenceMetrics txs addr)).whale_dormant < 0.30) →
      (classifyWallet txs addr inc).verdict = Verdict.NEUTRAL ∧
      (classifyWallet txs addr inc).confidence = 0.45) := by
  obtain ⟨h1, h2, h3, h4⟩ := computeAllScores_mem (computeIntelligenceMetrics txs addr)
  refine ⟨h1, h2, h3, h4, fun hlow => ?_⟩
  rw [classifyWallet_of_ne_nil addr inc h]
  exact pick_neutral_of_low _ hlow

/-- Any verdict is one of the closed five-value set. -/
theorem verdict_five (v : Verdict) :
    v = Verdict.SMART_MONEY_ACCUMULATION ∨ v = Verdict.STEALTH_DISTRIBUTION ∨
    v = Verdict.EXCHANGE_ROTATION ∨ v = Verdict.WHALE_DORMANT ∨ v = Verdict.NEUTRAL := by
  cases v <;> simp

theorem pick_confidence_mem (m : IntelMetrics) :
    0.30 ≤ (pickVerdictAndConfidence m).confidence ∧
    (pickVerdictAndConfidence m).confidence ≤ 0.95 ∧
    ∃ k : ℤ, (pickVerdictAndConfidence m).confidence = (k : ℚ) / 100 := by
  unfold pickVerdictAndConfidence
  exact computeConfidence_mem _ _ _ _

/-- A one-record transfer list moving 1 ETH to the subject. -/
def wTxC2 : Tx :=
  { fromAddr := some "b", toAddr := some "a",
    value := some (ValStr.num (10 ^ 18)), timeStamp := some (TsStr.num 1000000) }

/-- Witness for C2 at a concrete one-record input on which every score is
0: the classifier returns `NEUTRAL` with confidence exactly 0.45. -/
theorem scores_unit_interval_neutral_fallback_witness :
    (0 ≤ (computeAllScores (computeIntelligenceMetrics [wTxC2] "a")).accumulation ∧
      (computeAllScores (computeIntelligenceMetrics [wTxC2] "a")).accumulation ≤ 1) ∧
    (classifyWallet [wTxC2] "a" true).verdict = Verdict.NEUTRAL ∧
    (classifyWallet [wTxC2] "a" true).confidence = 0.45 := by
  have h := scores_unit_interval_neutral_fallback [wTxC2] "a" true (List.cons_ne_nil _ _)
  have hlow : (computeAllScores (computeIntelligenceMetrics [wTxC2] "a")).accumulation < 0.30 ∧
      (computeAllScores (computeIntelligenceMetrics [wTxC2] "a")).distribution < 0.30 ∧
      (computeAllScores (computeIntelligenceMetrics [wTxC2] "a")).exchange_rotation < 0.30 ∧
      (computeAllScores (computeIntelligenceMetrics [wTxC2] "a")).whale_dormant < 0.30 := by
    norm_num +decide [computeAllScores, scoreSignals, SIGNALS_ACCUMULATION, SIGNALS_DISTRIBUTION,
      SIGNALS_EXCHANGE_ROTATION, SIGNALS_WHALE_DORMANT, MAX_SCORE_ACCUMULATION,
      MAX_SCORE_DISTRIBUTION, MAX_SCORE_EXCHANGE_ROTATION, MAX_SCORE_WHALE_DORMANT,
      computeIntelligenceMetrics, analyze_transactions, total_in_raw, total_out_raw,
      counterpartiesOf, cpList, large_transfers_of, listMin, listMax, timestampsOf, txTs,
      inContrib, outContrib, txTo, txFrom, txValueEth, wei_to_eth, valueOr0, WEI_PER_ETH,
      pyLower, pyRound, net_eth_of, span_seconds_of, seconds_to_days, span_days_of,
      tx_frequency_of, now_ts_of, recent_cutoff_of, recent_tx_count_of, spike_count_of,
      spike_total_of, in_values_of, out_values_of, out_values_sorted_of, median_out_of,
      staggered_exits_of, hour_of, hour_count_of, max_same_hour_of, repeated_timing_of,
      total_flow_of, historically_large_of, dormant_candidate_of, inflow_outflow_ratio_raw,
      outflow_inflow_ratio_raw, wTxC2, INFLOW_OUTFLOW_RATIO_ACCUM, OUTFLOW_INFLOW_RATIO_DIST,
      NET_INFLOW_MIN_ETH, NET_OUTFLOW_MIN_ETH, TX_FREQ_HIGH_TXS_PER_DAY, TX_FREQ_MIN_DAYS,
      COUNTERPARTIES_MANY, COUNTERPARTIES_FEW, LARGE_TRANSFER_ETH, SPIKE_ETH,
      LARGE_TRANSFERS_MIN_COUNT, WHALE_HISTORICAL_ETH, RECENCY_DAYS, RECENCY_MAX_TXS_DORMANT,
      RECENCY_MIN_HISTORICAL_TXS, RECENCY_SPAN_DAYS_WHALE, EXCHANGE_ROTATION_MIN_TXS,
      TIMING_MIN_TXS_FOR_PATTERN, List.insertionSort, List.orderedInsert]
  exact ⟨h.1, (h.2.2.2.2 hlow).1, (h.2.2.2.2 hlow).2⟩

/-! ## Claim C3: confidence interval, two decimals, closed verdict set -/

/-- C3.  For every non-empty transfer list and subject address, the
confidence of `classify_wallet` is a two-decimal value (an integer number
of hundredths) in `[0.30, 0.95]`, and the verdict is one of the five
closed enumeration values. -/
theorem confidence_bounds_two_decimals (txs : List Tx) (addr : String) (inc : Bool)
    (h : txs ≠ []) :
    (0.30 ≤ (classifyWallet txs addr inc).confidence ∧
      (classifyWallet txs addr inc).confidence ≤ 0.95) ∧
    (∃ k : ℤ, (classifyWallet txs addr inc).confidence = (k : ℚ) / 100) ∧
    ((classifyWallet txs addr inc).verdict = Verdict.SMART_MONEY_ACCUMULATION ∨
      (classifyWallet txs addr inc).verdict = Verdict.STEALTH_DISTRIBUTION ∨
      (classifyWallet txs addr inc).verdict = Verdict.EXCHANGE_ROTATION ∨
      (classifyWallet txs addr inc).verdict = Verdict.WHALE_DORMANT ∨
      (classifyWallet txs addr inc).verdict = Verdict.NEUTRAL) := by
  rw [classifyWallet_of_ne_nil addr inc h]
  obtain ⟨h1, h2, h3⟩ := pick_confidence_mem (computeIntelligenceMetrics txs addr)
  exact ⟨⟨h1, h2⟩, h3, verdict_five _⟩

/-- A one-record transfer list moving 60 ETH to the subject. -/
def wTxC3 : Tx :=
  { fromAddr := some "b", toAddr := some "a",
    value := some (ValStr.num (60 * 10 ^ 18)), timeStamp := some (TsStr.num 1700000000) }

/-- Witness for C3 at a concrete one-record input. -/
theorem confidence_bounds_two_decimals_witness :
    0.30 ≤ (classifyWallet [wTxC3] "a" true).confidence ∧
    (classifyWallet [wTxC3] "a" true).confidence ≤ 0.95 := by
  have h := confidence_bounds_two_decimals [wTxC3] "a" true (List.cons_ne_nil _ _)
  exact h.1

/-! ## Claim C8: monotonicity of the accumulation score in the inbound
total -/

/-- A metrics bag with the inbound total increased by `d` and the metrics
derived from it (net value, inflow/outflow ratio) recomputed the way the
metrics pass computes them; all other entries held fixed. -/
def bumpInbound (m : IntelMetrics) (d : ℚ) : IntelMetrics :=
  { m with
    total_in_eth := m.total_in_eth + d
    net_eth := m.net_eth + d
    inflow_outflow_ratio :=
      if 0 < m.total_out_eth then some (pyRound 4 ((m.total_in_eth + d) / m.total_out_eth))
      else m.inflow_outflow_ratio }

theorem scoreSignals_le (m m' : IntelMetrics) (sig : List (ℚ × (IntelMetrics → Bool)))
    (hw : ∀ wp ∈ sig, 0 ≤ wp.1)
    (hp : ∀ wp ∈ sig, wp.2 m = true → wp.2 m' = true) :
    scoreSignals m sig ≤ scoreSignals m' sig := by
  induction sig with
  | nil => simp [scoreSignals]
  | cons wp rest ih =>
    rw [scoreSignals_cons, scoreSignals_cons]
    have h1 : (if wp.2 m then wp.1 else 0) ≤ (if wp.2 m' then wp.1 else 0) := by
      cases h : wp.2 m with
      | false =>
        cases h' : wp.2 m' with
        | false => simp
        | true =>
          simp only [Bool.false_eq_true, if_false, if_pos]
          exact hw wp (List.mem_cons_self _ _)
      | true => simp [h, hp wp (List.mem_cons_self _ _) h]
    have h2 := ih (fun x hx => hw x (List.mem_cons_of_mem _ hx))
      (fun x hx => hp x (List.mem_cons_of_mem _ hx))
    linarith

/-- C8.  Increasing the inbound total (together with the net value and
the inflow/outflow ratio derived from it) while holding all other metrics
fixed never decreases the normalized accumulation score.  The hypothesis
ties the bag's stored ratio to its totals the way the metrics pass
produces it. -/
theorem accumulation_score_monotone_inbound (m : IntelMetrics) (d : ℚ) (hd : 0 ≤ d)
    (hc : 0 < m.total_out_eth →
      m.inflow_outflow_ratio = some (pyRound 4 (m.total_in_eth / m.total_out_eth))) :
    (computeAllScores m).accumulation ≤ (computeAllScores (bumpInbound m d)).accumulation := by
  have hs : scoreSignals m SIGNALS_ACCUMULATION ≤
      scoreSignals (bumpInbound m d) SIGNALS_ACCUMULATION := by
    apply scoreSignals_le _ _ _ signals_accumulation_weights_nonneg
    intro wp hwp
    fin_cases hwp
    · simp only [decide_eq_true_eq]
      intro h1
      by_cases h0 : 0 < m.total_out_eth
      · have hr := hc h0
        simp only [bumpInbound, if_pos h0, hr, Option.getD_some] at h1 ⊢
        refine le_trans h1 (pyRound_mono 4 ?_)
        gcongr
        linarith
      · simp only [bumpInbound, if_neg h0]
        exact h1
    · simp only [decide_eq_true_eq, bumpInbound]
      intro h1
      linarith
    · simp only [Bool.and_eq_true, decide_eq_true_eq, bumpInbound]
      rintro ⟨h1, h2⟩
      exact ⟨h1, by linarith⟩
    · simp only [Bool.and_eq_true, decide_eq_true_eq, bumpInbound]
      rintro ⟨h1, h2⟩
      exact ⟨h1, by linarith⟩
    · simp only [decide_eq_true_eq, bumpInbound]
      exact id
  unfold computeAllScores
  simp only [max_score_accumulation_eq, div_one]
  exact min_le_min le_rfl (pyRound_mono 4 hs)

/-- An all-zero metrics bag (consistent: its ratio entries match its
totals). -/
def zeroBag : IntelMetrics :=
  { total_in_eth := 0, total_out_eth := 0, net_eth := 0, inflow_outflow_ratio := none,
    outflow_inflow_ratio := none, total_txs := 0, span_days := 0, tx_frequency := 0,
    unique_counterparties := 0, large_transfers_count := 0, spike_count := 0,
    spike_total_eth := 0, recent_tx_count := 0, first_seen := none, last_seen := none,
    staggered_exits := false, repeated_timing := false, total_flow_eth := 0,
    historically_large := false, dormant_candidate := false, num_inflows := 0,
    num_outflows := 0 }

/-- Witness for C8: bump the all-zero bag's inbound total by 1 ETH. -/
theorem accumulation_score_monotone_inbound_witness :
    (computeAllScores zeroBag).accumulation ≤
      (computeAllScores (bumpInbound zeroBag 1)).accumulation :=
  accumulation_score_monotone_inbound zeroBag 1 (by norm_num)
    (fun h0 => absurd h0 (by norm_num [zeroBag]))

/-! ## Claim C9: deterministic tie-breaking in dict insertion order -/

/-- Position of a verdict in the score-dict insertion order. -/
def verdictRank : Verdict → ℕ
  | .SMART_MONEY_ACCUMULATION => 0
  | .STEALTH_DISTRIBUTION => 1
  | .EXCHANGE_ROTATION => 2
  | .WHALE_DORMANT => 3
  | .NEUTRAL => 4

/-- The maximal value of the four-key score map. -/
def maxScore (s : Scores) : ℚ :=
  max (max s.accumulation s.distribution) (max s.exchange_rotation s.whale_dormant)

/-- The Python `max` over the score dict attains the maximal score, and
every strictly earlier key in insertion order scores strictly below it
(first key wins a tie). -/
theorem bestVerdict_max_first (s : Scores) :
    scoreOf s (bestVerdict s) = maxScore s ∧
    ∀ v : Verdict, verdictRank v < verdictRank (bestVerdict s) →
      scoreOf s v < maxScore s := by
  unfold bestVerdict
  simp only []
  by_cases h1 : scoreOf s Verdict.SMART_MONEY_ACCUMULATION < s.distribution <;>
    [rw [if_pos h1]; rw [if_neg h1]] <;>
    simp only [scoreOf] at h1
  · by_cases h2 : scoreOf s Verdict.STEALTH_DISTRIBUTION < s.exchange_rotation <;>
      [rw [if_pos h2]; rw [if_neg h2]] <;>
      simp only [scoreOf] at h2
    · by_cases h3 : scoreOf s Verdict.EXCHANGE_ROTATION < s.whale_dormant <;>
        [rw [if_pos h3]; rw [if_neg h3]] <;>
        simp only [scoreOf] at h3
      · have hmx : scoreOf s Verdict.WHALE_DORMANT = maxScore s := by
          simp only [scoreOf, maxScore]
          exact (le_antisymm (le_trans (le_max_right _ _) (le_max_right _ _))
            (max_le (max_le (by linarith) (by linarith))
              (max_le (by linarith) le_rfl))).symm.symm
        refine ⟨hmx, fun v hv => ?_⟩
        cases v <;> simp only [verdictRank] at hv <;> first
          | omega
          | (simp only [scoreOf] at hmx ⊢; rw [← hmx]; linarith)
      · have hmx : scoreOf s Verdict.EXCHANGE_ROTATION = maxScore s := by
          simp only [scoreOf, maxScore]
          exact le_antisymm (le_trans (le_max_left _ _) (le_max_right _ _))
            (max_le (max_le (by linarith) (by linarith))
              (max_le le_rfl (by linarith)))
        refine ⟨hmx, fun v hv => ?_⟩
        cases v <;> simp only [verdictRank] at hv <;> first
          | omega
          | (simp only [scoreOf] at hmx ⊢; rw [← hmx]; linarith)
    · by_cases h3 : scoreOf s Verdict.STEALTH_DISTRIBUTION < s.whale_dormant <;>
        [rw [if_pos h3]; rw [if_neg h3]] <;>
        simp only [scoreOf] at h3
      · have hmx : scoreOf s Verdict.WHALE_DORMANT = maxScore s := by
          simp only [scoreOf, maxScore]
          exact le_antisymm (le_trans (le_max_right _ _) (le_max_right _ _))
            (max_le (max_le (by linarith) (by linarith))
              (max_le (by linarith) le_rfl))
        refine ⟨hmx, fun v hv => ?_⟩
        cases v <;> simp only [verdictRank] at hv <;> first
          | omega
          | (simp only [scoreOf] at hmx ⊢; rw [← hmx]; linarith)
      · have hmx : scoreOf s Verdict.STEALTH_DISTRIBUTION = maxScore s := by
          simp only [scoreOf, maxScore]
          exact le_antisymm (le_trans (le_max_right _ _) (le_max_left _ _))
            (max_le (max_le (by linarith) le_rfl)
              (max_le (by linarith) (by linarith)))
        refine ⟨hmx, fun v hv => ?_⟩
        cases v <;> simp only [verdictRank] at hv <;> first
          | omega
          | (simp only [scoreOf] at hmx ⊢; rw [← hmx]; linarith)
  · by_cases h2 : scoreOf s Verdict.SMART_MONEY_ACCUMULATION < s.exchange_rotation <;>
      [rw [if_pos h2]; rw [if_neg h2]] <;>
      simp only [scoreOf] at h2
    · by_cases h3 : scoreOf s Verdict.EXCHANGE_ROTATION < s.whale_dormant <;>
        [rw [if_pos h3]; rw [if_neg h3]] <;>
        simp only [scoreOf] at h3
      · have hmx : scoreOf s Verdict.WHALE_DORMANT = maxScore s := by
          simp only [scoreOf, maxScore]
          exact le_antisymm (le_trans (le_max_right _ _) (le_max_right _ _))
            (max_le (max_le (by linarith) (by linarith))
              (max_le (by linarith) le_rfl))
        refine ⟨hmx, fun v hv => ?_⟩
        cases v <;> simp only [verdictRank] at hv <;> first
          | omega
          | (simp only [scoreOf] at hmx ⊢; rw [← hmx]; linarith)
      · have hmx : scoreOf s Verdict.EXCHANGE_ROTATION = maxScore s := by
          simp only [scoreOf, maxScore]
          exact le_antisymm (le_trans (le_max_left _ _) (le_max_right _ _))
            (max_le (max_le (by linarith) (by linarith))
              (max_le le_rfl (by linarith)))
        refine ⟨hmx, fun v hv => ?_⟩
        cases v <;> simp only [verdictRank] at hv <;> first
          | omega
          | (simp only [scoreOf] at hmx ⊢; rw [← hmx]; linarith)
    · by_cases h3 : scoreOf s Verdict.SMART_MONEY_ACCUMULATION < s.whale_dormant <;>
        [rw [if_pos h3]; rw [if_neg h3]] <;>
        simp only [scoreOf] at h3
      · have hmx : scoreOf s Verdict.WHALE_DORMANT = maxScore s := by
          simp only [scoreOf, maxScore]
          exact le_antisymm (le_trans (le_max_right _ _) (le_max_right _ _))
            (max_le (max_le (by linarith) (by linarith))
              (max_le (by linarith) le_rfl))
        refine ⟨hmx, fun v hv => ?_⟩
        cases v <;> simp only [verdictRank] at hv <;> first
          | omega
          | (simp only [scoreOf] at hmx ⊢; rw [← hmx]; linarith)
      · have hmx : scoreOf s Verdict.SMART_MONEY_ACCUMULATION = maxScore s := by
          simp only [scoreOf, maxScore]
          exact le_antisymm (le_trans (le_max_left _ _) (le_max_left _ _))
            (max_le (max_le le_rfl (by linarith))
              (max_le (by linarith) (by linarith)))
        refine ⟨hmx, fun v hv => ?_⟩
        cases v <;> simp only [verdictRank] at hv <;> omega

/-- C9.  When two or more verdicts share the maximal normalized score and
that score clears the 0.30 floor, the verdict selected is the earliest
one attaining the maximum in the fixed order SMART_MONEY_ACCUMULATION,
STEALTH_DISTRIBUTION, EXCHANGE_ROTATION, WHALE_DORMANT: the selected
verdict attains the maximum and every strictly earlier verdict scores
strictly below it. -/
theorem tie_break_priority_order (m : IntelMetrics) (v w : Verdict)
    (hvw : v ≠ w)
    (hv : scoreOf (computeAllScores m) v = maxScore (computeAllScores m))
    (hw : scoreOf (computeAllScores m) w = maxScore (computeAllScores m))
    (hmin : 0.30 ≤ maxScore (computeAllScores m)) :
    scoreOf (computeAllScores m) ((pickVerdictAndConfidence m).verdict) =
      maxScore (computeAllScores m) ∧
    ∀ u : Verdict, verdictRank u < verdictRank ((pickVerdictAndConfidence m).verdict) →
      scoreOf (computeAllScores m) u < maxScore (computeAllScores m) := by
  have hbs := bestVerdict_max_first (computeAllScores m)
  have hnf : ¬ (scoreOf (computeAllScores m) (bestVerdict (computeAllScores m)) < 0.30) := by
    rw [hbs.1]
    exact not_lt.mpr hmin
  have hverdict : (pickVerdictAndConfidence m).verdict = bestVerdict (computeAllScores m) := by
    unfold pickVerdictAndConfidence
    simp [decide_eq_false hnf]
  rw [hverdict]
  exact hbs

/-- A metrics bag on which the accumulation and distribution scores tie
at exactly 0.30 (both ratio signals fire, nothing else does). -/
def tieBag : IntelMetrics :=
  { total_in_eth := 0, total_out_eth := 0, net_eth := 0, inflow_outflow_ratio := some 2,
    outflow_inflow_ratio := some 2, total_txs := 0, span_days := 0, tx_frequency := 0,
    unique_counterparties := 0, large_transfers_count := 0, spike_count := 0,
    spike_total_eth := 0, recent_tx_count := 0, first_seen := none, last_seen := none,
    staggered_exits := false, repeated_timing := false, total_flow_eth := 0,
    historically_large := false, dormant_candidate := false, num_inflows := 0,
    num_outflows := 0 }

theorem tieBag_scores :
    (computeAllScores tieBag).accumulation = 0.30 ∧
    (computeAllScores tieBag).distribution = 0.30 ∧
    (computeAllScores tieBag).exchange_rotation = 0 ∧
    (computeAllScores tieBag).whale_dormant = 0 := by
  norm_num +decide [computeAllScores, scoreSignals, SIGNALS_ACCUMULATION,
    SIGNALS_DISTRIBUTION, SIGNALS_EXCHANGE_ROTATION, SIGNALS_WHALE_DORMANT,
    MAX_SCORE_ACCUMULATION, MAX_SCORE_DISTRIBUTION, MAX_SCORE_EXCHANGE_ROTATION,
    MAX_SCORE_WHALE_DORMANT, tieBag, INFLOW_OUTFLOW_RATIO_ACCUM, OUTFLOW_INFLOW_RATIO_DIST,
    NET_INFLOW_MIN_ETH, NET_OUTFLOW_MIN_ETH, TX_FREQ_HIGH_TXS_PER_DAY, COUNTERPARTIES_MANY,
    COUNTERPARTIES_FEW, LARGE_TRANSFER_ETH, LARGE_TRANSFERS_MIN_COUNT, WHALE_HISTORICAL_ETH,
    RECENCY_MAX_TXS_DORMANT, RECENCY_MIN_HISTORICAL_TXS, RECENCY_SPAN_DAYS_WHALE,
    EXCHANGE_ROTATION_MIN_TXS, pyRound]

theorem tieBag_maxScore : maxScore (computeAllScores tieBag) = 0.30 := by
  obtain ⟨h1, h2, h3, h4⟩ := tieBag_scores
  rw [maxScore, h1, h2, h3, h4]
  norm_num

/-- Witness for C9 on a bag where accumulation and distribution tie at
0.30: the selected verdict attains the maximum. -/
theorem tie_break_priority_order_witness :
    scoreOf (computeAllScores tieBag) ((pickVerdictAndConfidence tieBag).verdict) =
      maxScore (computeAllScores tieBag) := by
  refine (tie_break_priority_order tieBag Verdict.SMART_MONEY_ACCUMULATION
    Verdict.STEALTH_DISTRIBUTION (by simp) ?_ ?_ ?_).1
  · rw [tieBag_maxScore]
    exact tieBag_scores.1
  · rw [tieBag_maxScore]
    exact tieBag_scores.2.1
  · rw [tieBag_maxScore]

/-! ## Claim C10: a self-transfer counts on both sides -/

/-- C10.  For a record whose sender and receiver both equal the (nonempty)
subject address after case normalization, the record's value is added to
both the inbound and the outbound running totals, and the subject's own
lowered address lands in the unique-counterparties set.  (An empty
subject string is the falsy `wallet_address`, which switches
`analyze_transactions` to its no-wallet branch; the spec requires callers
to pass a validated address, so the subject is nonempty.) -/
theorem self_transfer_counted_both_sides (txs : List Tx) (addr : String) (tx : Tx)
    (hmem : tx ∈ txs) (ha : addr ≠ "")
    (hf : txFrom tx = pyLower addr) (ht : txTo tx = pyLower addr) :
    total_in_raw txs addr = txValueEth tx + total_in_raw (txs.erase tx) addr ∧
    total_out_raw txs addr = txValueEth tx + total_out_raw (txs.erase tx) addr ∧
    pyLower addr ∈ counterpartiesOf txs addr := by
  have hperm : txs.Perm (tx :: txs.erase tx) := List.perm_cons_erase hmem
  have haL : pyLower addr ≠ "" := fun hc => ha ((pyLower_eq_empty_iff addr).mp hc)
  refine ⟨?_, ?_, ?_⟩
  · unfold total_in_raw
    rw [if_neg ha, if_neg ha, (hperm.map (inContrib (pyLower addr))).sum_eq]
    simp [inContrib, ht]
  · unfold total_out_raw
    rw [if_neg ha, if_neg ha, (hperm.map (outContrib (pyLower addr))).sum_eq]
    simp [outContrib, hf]
  · unfold counterpartiesOf
    rw [List.mem_toFinset]
    refine List.mem_flatMap.mpr ⟨tx, hmem, ?_⟩
    unfold cpList
    rw [if_neg ha]
    simp [hf, ht, haL]

/-- A 5-ETH self-transfer (sender and receiver both the subject, in mixed
case). -/
def selfTx : Tx :=
  { fromAddr := some "aB", toAddr := some "AB",
    value := some (ValStr.num (5 * 10 ^ 18)), timeStamp := none }

/-- Witness for C10 at a concrete mixed-case self-transfer. -/
theorem self_transfer_counted_both_sides_witness :
    total_in_raw [selfTx] "Ab" = txValueEth selfTx + total_in_raw ([selfTx].erase selfTx) "Ab" ∧
    total_out_raw [selfTx] "Ab" = txValueEth selfTx + total_out_raw ([selfTx].erase selfTx) "Ab" ∧
    pyLower "Ab" ∈ counterpartiesOf [selfTx] "Ab" :=
  self_transfer_counted_both_sides [selfTx] "Ab" selfTx (by simp) (by decide)
    (by decide) (by decide)

/-! ## Claim C7: invariance under reordering of the transfer list

Every metric is an aggregate (sum, count, set, min/max, sorted median,
histogram maximum) of the record list, so the whole classification is
invariant under permutations of the input. -/

theorem listMin_perm {l₁ l₂ : List ℤ} (h : l₁.Perm l₂) : listMin l₁ = listMin l₂ := by
  induction h with
  | nil => rfl
  | cons x _ ih => simp only [listMin, ih]
  | swap x y l => cases hl : listMin l <;> simp [listMin, hl, min_comm, min_left_comm]
  | trans _ _ ih₁ ih₂ => exact ih₁.trans ih₂

theorem listMax_perm {l₁ l₂ : List ℤ} (h : l₁.Perm l₂) : listMax l₁ = listMax l₂ := by
  induction h with
  | nil => rfl
  | cons x _ ih => simp only [listMax, ih]
  | swap x y l => cases hl : listMax l <;> simp [listMax, hl, max_comm, max_left_comm]
  | trans _ _ ih₁ ih₂ => exact ih₁.trans ih₂

theorem flatMap_perm {α β : Type} {l₁ l₂ : List α} (h : l₁.Perm l₂) (f : α → List β) :
    (l₁.flatMap f).Perm (l₂.flatMap f) := by
  induction h with
  | nil => exact List.Perm.refl _
  | cons x _ ih =>
    simp only [List.flatMap_cons]
    exact ih.append_left (f x)
  | swap x y l =>
    simp only [List.flatMap_cons]
    rw [← List.append_assoc, ← List.append_assoc]
    exact (List.perm_append_comm).append_right _
  | trans _ _ ih₁ ih₂ => exact ih₁.trans ih₂

theorem insertionSort_eq_of_perm {l₁ l₂ : List ℚ} (h : l₁.Perm l₂) :
    List.insertionSort (· ≤ ·) l₁ = List.insertionSort (· ≤ ·) l₂ :=
  List.eq_of_perm_of_sorted
    ((List.perm_insertionSort _ _).trans (h.trans (List.perm_insertionSort _ _).symm))
    (List.sorted_insertionSort _ _) (List.sorted_insertionSort _ _)

theorem timestampsOf_perm {l₁ l₂ : List Tx} (h : l₁.Perm l₂) :
    (timestampsOf l₁).Perm (timestampsOf l₂) := h.filterMap txTs

theorem total_in_raw_perm {l₁ l₂ : List Tx} (h : l₁.Perm l₂) (addr : String) :
    total_in_raw l₁ addr = total_in_raw l₂ addr := by
  unfold total_in_raw
  split_ifs with he
  · rfl
  · exact (h.map _).sum_eq

theorem total_out_raw_perm {l₁ l₂ : List Tx} (h : l₁.Perm l₂) (addr : String) :
    total_out_raw l₁ addr = total_out_raw l₂ addr := by
  unfold total_out_raw
  split_ifs with he <;> exact (h.map _).sum_eq

theorem counterpartiesOf_perm {l₁ l₂ : List Tx} (h : l₁.Perm l₂) (addr : String) :
    counterpartiesOf l₁ addr = counterpartiesOf l₂ addr :=
  List.toFinset_eq_of_perm _ _ (flatMap_perm h _)

theorem analyze_transactions_perm {l₁ l₂ : List Tx} (h : l₁.Perm l₂) (addr : String) :
    analyze_transactions l₁ addr = analyze_transactions l₂ addr := by
  have hts := timestampsOf_perm h
  unfold analyze_transactions
  simp only [BehaviorMetrics.mk.injEq]
  exact ⟨h.length_eq, congrArg (pyRound 4) (total_in_raw_perm h addr),
    congrArg (pyRound 4) (total_out_raw_perm h addr),
    congrArg Finset.card (counterpartiesOf_perm h addr),
    listMin_perm hts, listMax_perm hts, h.countP_eq _⟩

theorem computeIntelligenceMetrics_perm {l₁ l₂ : List Tx} (h : l₁.Perm l₂) (addr : String) :
    computeIntelligenceMetrics l₁ addr = computeIntelligenceMetrics l₂ addr := by
  have hts := timestampsOf_perm h
  have hA : analyze_transactions l₁ addr = analyze_transactions l₂ addr :=
    analyze_transactions_perm h addr
  have hlen : l₁.length = l₂.length := h.length_eq
  have hmin : listMin (timestampsOf l₁) = listMin (timestampsOf l₂) := listMin_perm hts
  have hmax : listMax (timestampsOf l₁) = listMax (timestampsOf l₂) := listMax_perm hts
  have hnow : now_ts_of l₁ = now_ts_of l₂ := by
    unfold now_ts_of
    rw [hmax]
  have hcut : recent_cutoff_of l₁ = recent_cutoff_of l₂ := by
    unfold recent_cutoff_of
    rw [hnow]
  have hrecent : recent_tx_count_of l₁ = recent_tx_count_of l₂ := by
    unfold recent_tx_count_of
    rw [hcut]
    exact hts.countP_eq _
  have hspanS : span_seconds_of l₁ = span_seconds_of l₂ := by
    unfold span_seconds_of
    rw [hmin, hmax]
  have hspan : span_days_of l₁ = span_days_of l₂ := by
    unfold span_days_of
    rw [hspanS]
  have hfreq : tx_frequency_of l₁ = tx_frequency_of l₂ := by
    unfold tx_frequency_of
    rw [hspan, hlen]
  have hspikeC : spike_count_of l₁ = spike_count_of l₂ := h.countP_eq _
  have hspikeT : spike_total_of l₁ = spike_total_of l₂ := (h.map _).sum_eq
  have hlarge : large_transfers_of l₁ = large_transfers_of l₂ := h.countP_eq _
  have hcp : counterpartiesOf l₁ addr = counterpartiesOf l₂ addr :=
    counterpartiesOf_perm h addr
  have hinP : (in_values_of l₁ addr).Perm (in_values_of l₂ addr) := by
    unfold in_values_of
    split_ifs
    · exact List.Perm.refl _
    · exact h.filterMap _
  have houtP : (out_values_of l₁ addr).Perm (out_values_of l₂ addr) := by
    unfold out_values_of
    split_ifs
    · exact List.Perm.refl _
    · exact h.filterMap _
  have hsort : out_values_sorted_of l₁ addr = out_values_sorted_of l₂ addr := by
    unfold out_values_sorted_of
    exact insertionSort_eq_of_perm houtP
  have hmed : median_out_of l₁ addr = median_out_of l₂ addr := by
    unfold median_out_of
    rw [hsort, houtP.length_eq]
  have hstag : staggered_exits_of l₁ addr = staggered_exits_of l₂ addr := by
    unfold staggered_exits_of
    rw [houtP.length_eq, hmed, hA]
  have hhour : hour_count_of l₁ = hour_count_of l₂ :=
    funext fun hh => hts.countP_eq _
  have hmaxh : max_same_hour_of l₁ = max_same_hour_of l₂ := by
    unfold max_same_hour_of
    rw [hhour]
  have hrep : repeated_timing_of l₁ = repeated_timing_of l₂ := by
    unfold repeated_timing_of
    rw [hmaxh]
  have hflow : total_flow_of l₁ addr = total_flow_of l₂ addr := by
    unfold total_flow_of
    rw [hA]
  have hhist : historically_large_of l₁ addr = historically_large_of l₂ addr := by
    unfold historically_large_of
    rw [hflow]
  have hdorm : dormant_candidate_of l₁ addr = dormant_candidate_of l₂ addr := by
    unfold dormant_candidate_of
    rw [hlen, hrecent, hhist]
  have hior : inflow_outflow_ratio_raw l₁ addr = inflow_outflow_ratio_raw l₂ addr := by
    unfold inflow_outflow_ratio_raw
    rw [hA]
  have hoir : outflow_inflow_ratio_raw l₁ addr = outflow_inflow_ratio_raw l₂ addr := by
    unfold outflow_inflow_ratio_raw
    rw [hA]
  have hnet : net_eth_of l₁ addr = net_eth_of l₂ addr := by
    unfold net_eth_of
    rw [hA]
  unfold computeIntelligenceMetrics
  rw [hA, hnet, hior, hoir, hlen, hspan, hfreq, hcp, hlarge, hspikeC, hspikeT, hrecent,
    hmin, hmax, hstag, hrep, hflow, hhist, hdorm, hinP.length_eq, houtP.length_eq]

/-- C7.  `classify_wallet` returns the same result on any permutation of
the transfer list: the classification is invariant under reordering of
the input sequence (in the exact-arithmetic embedding; only aggregates of
the list are ever computed). -/
theorem classify_perm_invariant (l₁ l₂ : List Tx) (addr : String) (inc : Bool)
    (h : l₁.Perm l₂) : classifyWallet l₁ addr inc = classifyWallet l₂ addr inc := by
  have h0 := h.length_eq
  have hE : l₁.isEmpty = l₂.isEmpty := by
    rcases l₁ with _ | ⟨a, t⟩ <;> rcases l₂ with _ | ⟨b, u⟩ <;> simp_all
  unfold classifyWallet
  rw [hE, computeIntelligenceMetrics_perm h addr]

/-- Two concrete records for the C7 witness. -/
def wTxC7a : Tx :=
  { fromAddr := some "b", toAddr := some "a",
    value := some (ValStr.num (12 * 10 ^ 18)), timeStamp := some (TsStr.num 1700000000) }

def wTxC7b : Tx :=
  { fromAddr := some "a", toAddr := some "c",
    value := some (ValStr.num (7 * 10 ^ 18)), timeStamp := some (TsStr.num 1700100000) }

/-- Witness for C7: swapping a concrete two-record list leaves the
result unchanged. -/
theorem classify_perm_invariant_witness :
    classifyWallet [wTxC7a, wTxC7b] "a" true = classifyWallet [wTxC7b, wTxC7a] "a" true :=
  classify_perm_invariant [wTxC7a, wTxC7b] [wTxC7b, wTxC7a] "a" true
    (List.Perm.swap wTxC7b wTxC7a [])

end WhaleMind
